import Mathlib

/-!
Shallow embedding of the inventory-allocation core
(`src/allocation/domain/models.py`, `src/allocation/domain/exceptions.py`,
`src/allocation/domain/events.py`, `src/allocation/service_layer/messagebus.py`,
`src/allocation/service_layer/handlers.py`) together with theorems settling
the specification claims.

Conventions:
* Python `int` is `Int`; a `date` is encoded as the number of days since
  `date.min` (so `date.min` itself is day `0`); `Optional[T]` is `Option T`.
* A raised Python exception is an `Except.error` carrying a `PyExn` value.
* `Batch._allocations` is a `set` of structurally-compared `OrderLine`
  values; it is embedded as an insertion-ordered duplicate-free list
  (`allocate` only inserts after a membership test, so no duplicates arise).
-/

namespace Allocation

/-- Python exception values observable from the embedded code. `typeError`
models a `TypeError` raised by the interpreter itself, e.g. for a call that
does not match the callee's signature. -/
inductive PyExn : Type where
  | typeError (msg : String)
  | cannotAllocateError (orderid sku : String) (qty : Int) (message : String)
  | invalidSku (msg : String)
  | keyError (msg : String)
  | exception (msg : String)
deriving DecidableEq

/-- Value object from `models.py`: frozen dataclass with structural equality. -/
structure OrderLine : Type where
  orderid : String
  sku : String
  qty : Int
deriving DecidableEq

/-- Domain events from `events.py`: `BatchAllocated` and `OutOfStock`. -/
inductive DomainEvent : Type where
  | batchAllocated (orderid sku : String) (qty : Int) (batchref : String)
  | outOfStock (sku : String)
deriving DecidableEq

/-- Entity from `models.py`. `eta` is a date encoded as days since `date.min`;
`allocations` embeds the Python set `_allocations` in insertion order;
`events` is the batch's domain-event list. -/
structure Batch : Type where
  reference : String
  sku : String
  purchased_quantity : Int
  eta : Option Nat
  allocations : List OrderLine
  events : List DomainEvent
deriving DecidableEq

/-- Total quantity of a list of order lines, `sum(line.qty for line in ...)`. -/
def sumQty (ls : List OrderLine) : Int :=
  (ls.map OrderLine.qty).sum

/-- Property `Batch.allocated_qty` from `models.py`. -/
def Batch.allocated_qty (b : Batch) : Int :=
  sumQty b.allocations

/-- Property `Batch.available_qty` from `models.py`:
`_purchased_quantity - allocated_qty`. -/
def Batch.available_qty (b : Batch) : Int :=
  b.purchased_quantity - b.allocated_qty

/-- Predicate `Batch.can_allocate` from `models.py`:
`self.sku == line.sku and self.available_qty >= line.qty`. -/
def Batch.can_allocate (b : Batch) (l : OrderLine) : Bool :=
  b.sku == l.sku && decide (l.qty ≤ b.available_qty)

/-- Evaluation of the expression `CannotAllocateError(message)` as it appears
at every raise site in `models.py`, passing a single positional argument.
`CannotAllocateError.__init__` in `exceptions.py` requires the positional
parameters `(orderid, sku, qty)`, so this call binds only `orderid` and the
interpreter raises `TypeError` for the two missing required positional
arguments before anything is raised by the `raise` statement itself. -/
def callCannotAllocateError1 (message : String) : PyExn :=
  PyExn.typeError
    ("CannotAllocateError.__init__ missing 2 required positional arguments (sku, qty); single argument was: "
      ++ message)

/-- Method `Batch.allocate` from `models.py`: raise if `can_allocate` fails,
no-op if the line is already allocated, otherwise add the line, append a
`BatchAllocated` event, and append an `OutOfStock` event when `available_qty`
has just reached zero. -/
def Batch.allocate (b : Batch) (l : OrderLine) : Except PyExn Batch :=
  if ¬ b.can_allocate l then
    Except.error (callCannotAllocateError1
      ("Batch " ++ b.reference ++ " cannot allocate " ++ toString l.qty
        ++ " units of " ++ l.sku ++ "."))
  else if l ∈ b.allocations then
    Except.ok b
  else
    let withLine : Batch :=
      { b with
        allocations := b.allocations ++ [l]
        events := b.events
          ++ [DomainEvent.batchAllocated l.orderid l.sku l.qty b.reference] }
    if withLine.available_qty = 0 then
      Except.ok { withLine with
        events := withLine.events ++ [DomainEvent.outOfStock b.sku] }
    else
      Except.ok withLine

/-- Method `Batch.deallocate` from `models.py`: remove the line if present,
no-op otherwise; emits no event. -/
def Batch.deallocate (b : Batch) (l : OrderLine) : Batch :=
  if l ∈ b.allocations then
    { b with allocations := b.allocations.erase l }
  else
    b

theorem sumQty_append (xs ys : List OrderLine) :
    sumQty (xs ++ ys) = sumQty xs + sumQty ys := by
  simp [sumQty]

theorem available_qty_withLine (b : Batch) (l : OrderLine) (ev : List DomainEvent) :
    (Batch.available_qty { b with allocations := b.allocations ++ [l], events := ev })
      = b.available_qty - l.qty := by
  simp [Batch.available_qty, Batch.allocated_qty, sumQty_append, sumQty]
  ring

/-- Characterization of a successful fresh allocation, shared by several
claim theorems: under `can_allocate` and non-membership, `allocate` adds the
line, appends `BatchAllocated`, and appends `OutOfStock` exactly when the new
available quantity is zero. -/
theorem Batch.allocate_fresh (b : Batch) (l : OrderLine)
    (hca : b.can_allocate l = true) (hmem : l ∉ b.allocations) :
    b.allocate l = Except.ok
      { b with
        allocations := b.allocations ++ [l]
        events := b.events
          ++ [DomainEvent.batchAllocated l.orderid l.sku l.qty b.reference]
          ++ (if b.available_qty - l.qty = 0 then [DomainEvent.outOfStock b.sku] else []) } := by
  rw [Batch.allocate, if_neg (not_not_intro hca), if_neg hmem]
  simp only [available_qty_withLine]
  by_cases h0 : b.available_qty - l.qty = 0
  · rw [if_pos h0, if_pos h0]
  · rw [if_neg h0, if_neg h0]
    simp

/-- Claim C7 (amended with the freshness hypothesis `l ∉ b.allocations`):
for every Batch `b` and OrderLine `l` with `b.can_allocate l` true and `l`
not already allocated, after `b.allocate l` the line is a member of the
allocations and `available_qty` has decreased by exactly `l.qty`. -/
theorem batch_allocate_adds_line_and_decreases_available (b : Batch) (l : OrderLine)
    (hca : b.can_allocate l = true) (hmem : l ∉ b.allocations) :
    ∃ b2, b.allocate l = Except.ok b2 ∧ l ∈ b2.allocations ∧
      b2.available_qty = b.available_qty - l.qty := by
  refine ⟨_, Batch.allocate_fresh b l hca hmem, by simp, ?_⟩
  exact available_qty_withLine b l _

/-- Witness for the amended claim C7 at a concrete fresh allocation. -/
theorem batch_allocate_adds_line_witness :
    (Batch.can_allocate ⟨"b-w7", "SKU-W7", 10, none, [], []⟩ ⟨"o1", "SKU-W7", 4⟩ = true ∧
      (⟨"o1", "SKU-W7", 4⟩ : OrderLine) ∉ (⟨"b-w7", "SKU-W7", 10, none, [], []⟩ : Batch).allocations) ∧
    ∃ b2, Batch.allocate ⟨"b-w7", "SKU-W7", 10, none, [], []⟩ ⟨"o1", "SKU-W7", 4⟩ = Except.ok b2 ∧
      (⟨"o1", "SKU-W7", 4⟩ : OrderLine) ∈ b2.allocations ∧
      b2.available_qty = (⟨"b-w7", "SKU-W7", 10, none, [], []⟩ : Batch).available_qty - 4 :=
  ⟨⟨by decide, by decide⟩,
    batch_allocate_adds_line_and_decreases_available
      ⟨"b-w7", "SKU-W7", 10, none, [], []⟩ ⟨"o1", "SKU-W7", 4⟩ (by decide) (by decide)⟩

/-- Counterexample to claim C7 as stated: the batch already holds the line,
`can_allocate` is still true, yet `allocate` is a no-op, so `available_qty`
does not decrease by `l.qty`. -/
theorem batch_allocate_no_decrease_when_already_allocated :
    Batch.can_allocate ⟨"b-c7", "SKU-C7", 10, none, [⟨"o1", "SKU-C7", 3⟩], []⟩ ⟨"o1", "SKU-C7", 3⟩ = true ∧
    Batch.allocate ⟨"b-c7", "SKU-C7", 10, none, [⟨"o1", "SKU-C7", 3⟩], []⟩ ⟨"o1", "SKU-C7", 3⟩
      = Except.ok ⟨"b-c7", "SKU-C7", 10, none, [⟨"o1", "SKU-C7", 3⟩], []⟩ ∧
    (Batch.available_qty ⟨"b-c7", "SKU-C7", 10, none, [⟨"o1", "SKU-C7", 3⟩], []⟩)
      ≠ (Batch.available_qty ⟨"b-c7", "SKU-C7", 10, none, [⟨"o1", "SKU-C7", 3⟩], []⟩) - 3 :=
  ⟨by decide, rfl, by decide⟩

/-- Claim C8: a fresh successful allocation appends a `BatchAllocated` event,
followed by an `OutOfStock` event exactly when the new `available_qty` is
zero. -/
theorem batch_allocate_event_emission (b : Batch) (l : OrderLine)
    (hca : b.can_allocate l = true) (hmem : l ∉ b.allocations) :
    ∃ b2, b.allocate l = Except.ok b2 ∧
      b2.available_qty = b.available_qty - l.qty ∧
      b2.events = b.events
        ++ [DomainEvent.batchAllocated l.orderid l.sku l.qty b.reference]
        ++ (if b2.available_qty = 0 then [DomainEvent.outOfStock b.sku] else []) := by
  refine ⟨_, Batch.allocate_fresh b l hca hmem, ?_, ?_⟩
  · exact available_qty_withLine b l _
  · rw [available_qty_withLine b l _]

/-- Witness for claim C8, the scenario from the spec: purchased quantity 10,
line of quantity 10, emitted event sequence `[BatchAllocated, OutOfStock]`. -/
theorem batch_allocate_event_emission_witness :
    (Batch.can_allocate ⟨"b-w8", "SKU-W8", 10, none, [], []⟩ ⟨"o1", "SKU-W8", 10⟩ = true ∧
      (⟨"o1", "SKU-W8", 10⟩ : OrderLine) ∉ (⟨"b-w8", "SKU-W8", 10, none, [], []⟩ : Batch).allocations) ∧
    Batch.allocate ⟨"b-w8", "SKU-W8", 10, none, [], []⟩ ⟨"o1", "SKU-W8", 10⟩
      = Except.ok ⟨"b-w8", "SKU-W8", 10, none, [⟨"o1", "SKU-W8", 10⟩],
          [DomainEvent.batchAllocated "o1" "SKU-W8" 10 "b-w8", DomainEvent.outOfStock "SKU-W8"]⟩ ∧
    ∃ b2, Batch.allocate ⟨"b-w8", "SKU-W8", 10, none, [], []⟩ ⟨"o1", "SKU-W8", 10⟩ = Except.ok b2 ∧
      b2.available_qty = (⟨"b-w8", "SKU-W8", 10, none, [], []⟩ : Batch).available_qty - 10 ∧
      b2.events = ([] : List DomainEvent)
        ++ [DomainEvent.batchAllocated "o1" "SKU-W8" 10 "b-w8"]
        ++ (if b2.available_qty = 0 then [DomainEvent.outOfStock "SKU-W8"] else []) :=
  ⟨⟨by decide, by decide⟩, rfl,
    batch_allocate_event_emission ⟨"b-w8", "SKU-W8", 10, none, [], []⟩ ⟨"o1", "SKU-W8", 10⟩
      (by decide) (by decide)⟩

/-- Claim C3 (code bug): at a concrete input the second `allocate` of an
already-allocated line raises instead of being a successful no-op, because
the `can_allocate` guard (which now sees `available_qty` 0 < 10) runs before
the idempotency membership test; the failure is moreover a `TypeError` from
the malformed single-argument `CannotAllocateError` call. -/
theorem second_allocate_of_allocated_line_raises :
    Batch.allocate ⟨"b-c3", "SKU-C3", 10, none, [], []⟩ ⟨"o1", "SKU-C3", 10⟩
      = Except.ok ⟨"b-c3", "SKU-C3", 10, none, [⟨"o1", "SKU-C3", 10⟩],
          [DomainEvent.batchAllocated "o1" "SKU-C3" 10 "b-c3", DomainEvent.outOfStock "SKU-C3"]⟩ ∧
    (⟨"o1", "SKU-C3", 10⟩ : OrderLine)
      ∈ (⟨"b-c3", "SKU-C3", 10, none, [⟨"o1", "SKU-C3", 10⟩],
          [DomainEvent.batchAllocated "o1" "SKU-C3" 10 "b-c3", DomainEvent.outOfStock "SKU-C3"]⟩ : Batch).allocations ∧
    Batch.allocate ⟨"b-c3", "SKU-C3", 10, none, [⟨"o1", "SKU-C3", 10⟩],
          [DomainEvent.batchAllocated "o1" "SKU-C3" 10 "b-c3", DomainEvent.outOfStock "SKU-C3"]⟩
        ⟨"o1", "SKU-C3", 10⟩
      = Except.error (callCannotAllocateError1 "Batch b-c3 cannot allocate 10 units of SKU-C3.") :=
  ⟨rfl, by decide, rfl⟩

/-- Claim C4 (code bug): when `can_allocate` is false, `Batch.allocate` does
fail, but the exception is a `TypeError` (the `CannotAllocateError`
constructor is called with a single positional argument while its
`__init__` requires `orderid`, `sku` and `qty`), not a `CannotAllocateError`
as the claim and the method's own docstring state. -/
theorem batch_allocate_failure_is_typeerror :
    Batch.can_allocate ⟨"b-c4", "SKU-A", 10, none, [], []⟩ ⟨"o1", "SKU-B", 1⟩ = false ∧
    Batch.allocate ⟨"b-c4", "SKU-A", 10, none, [], []⟩ ⟨"o1", "SKU-B", 1⟩
      = Except.error (PyExn.typeError
          ("CannotAllocateError.__init__ missing 2 required positional arguments (sku, qty); single argument was: "
            ++ "Batch b-c4 cannot allocate 1 units of SKU-B.")) :=
  ⟨by decide, rfl⟩

/-! Product aggregate (`models.py`). -/

/-- Encoding of `datetime.date.min` (0001-01-01) in the days-since-`date.min`
encoding of dates: day `0`. -/
def dateMin : Nat := 0

/-- Sort key from `Product.allocate` in `models.py`,
`key=lambda b: b.eta or date.min`: `None` is falsy so a missing eta becomes
`date.min`; a `date` object is always truthy, so a present eta is its own
key. -/
def etaKey (b : Batch) : Nat :=
  b.eta.getD dateMin

/-- Comparison used to sort the owned batches: ascending by `etaKey`. The
batches are paired with their position in the owning list; the position is
inert for the comparison and stands in for Python object identity, so that
the in-place mutation of the chosen batch can be rendered functionally. -/
def etaLe (a b : Nat × Batch) : Prop :=
  etaKey a.2 ≤ etaKey b.2

instance : DecidableRel etaLe := fun a b => Nat.decLe (etaKey a.2) (etaKey b.2)

instance : IsTotal (Nat × Batch) etaLe := ⟨fun _ _ => Nat.le_total _ _⟩

instance : IsTrans (Nat × Batch) etaLe := ⟨fun _ _ _ => Nat.le_trans⟩

/-- Embedding of Python's `sorted(self.batches, key=lambda b: b.eta or date.min)`
on position-tagged batches. Python's `sorted` is a stable sort; insertion
sort with a total preorder is also stable, so the two agree element for
element. -/
def sortBatches (l : List (Nat × Batch)) : List (Nat × Batch) :=
  l.insertionSort etaLe

/-- Aggregate root from `models.py`. -/
structure Product : Type where
  sku : String
  batches : List Batch
deriving DecidableEq

/-- Method `Product.allocate` from `models.py`: raise on SKU mismatch, sort
owned batches ascending by `b.eta or date.min`, allocate to the first batch
that `can_allocate` the line and return its reference together with the
updated aggregate, raise out-of-stock if none qualifies. Both raise sites
call `CannotAllocateError` with a single positional argument, which the
interpreter turns into a `TypeError` (see `callCannotAllocateError1`). -/
def Product.allocate (p : Product) (l : OrderLine) : Except PyExn (Product × String) :=
  if l.sku ≠ p.sku then
    Except.error (callCannotAllocateError1
      ("SKU mismatch: " ++ l.sku ++ " not in product " ++ p.sku))
  else
    match (sortBatches p.batches.enum).find? (fun q => q.2.can_allocate l) with
    | some (i, b) =>
      match b.allocate l with
      | Except.ok b2 => Except.ok ({ p with batches := p.batches.set i b2 }, b.reference)
      | Except.error e => Except.error e
    | none => Except.error (callCannotAllocateError1 ("Out of stock for " ++ l.sku))

theorem allocate_ok_of_can_allocate (b : Batch) (l : OrderLine)
    (hca : b.can_allocate l = true) : ∃ b2, b.allocate l = Except.ok b2 := by
  by_cases hmem : l ∈ b.allocations
  · exact ⟨b, by rw [Batch.allocate, if_neg (not_not_intro hca), if_pos hmem]⟩
  · exact ⟨_, Batch.allocate_fresh b l hca hmem⟩

theorem find?_sorted_min {α : Type} {r : α → α → Prop} {pred : α → Bool}
    (hrefl : ∀ a, r a a) :
    ∀ {L : List α} {q : α}, List.Sorted r L → L.find? pred = some q →
      ∀ x ∈ L, pred x = true → r q x := by
  intro L
  induction L with
  | nil => intro q _ hfind; simp [List.find?] at hfind
  | cons a L ih =>
    intro q hsort hfind x hx hpx
    rw [List.sorted_cons] at hsort
    by_cases hpa : pred a = true
    · rw [List.find?_cons_of_pos _ hpa] at hfind
      injection hfind with hq
      rcases List.mem_cons.mp hx with h | h
      · rw [← hq, h]; exact hrefl a
      · rw [← hq]; exact hsort.1 x h
    · rw [List.find?_cons_of_neg _ hpa] at hfind
      rcases List.mem_cons.mp hx with h | h
      · exact absurd (h ▸ hpx) hpa
      · exact ih hsort.2 hfind x h hpx

/-- Claim C5 (amended: a batch with no eta is keyed as `date.min`, so it
sorts before any batch whose eta is after `date.min` but ties with a batch
whose eta equals `date.min`, ties resolved by original list position):
under matching SKU and at least one capable batch, `Product.allocate`
allocates to a capable batch whose `etaKey` is minimal among all capable
batches, returns its reference, updates exactly that batch in place, and
leaves every other position of the batch list untouched. -/
theorem product_allocate_picks_earliest_eta (p : Product) (l : OrderLine)
    (hsku : l.sku = p.sku) (hex : ∃ b ∈ p.batches, b.can_allocate l = true) :
    ∃ i b b2, p.batches[i]? = some b ∧ b.can_allocate l = true ∧
      b.allocate l = Except.ok b2 ∧
      p.allocate l = Except.ok ({ p with batches := p.batches.set i b2 }, b.reference) ∧
      (∀ c ∈ p.batches, c.can_allocate l = true → etaKey b ≤ etaKey c) ∧
      (∀ j, j ≠ i → (p.batches.set i b2)[j]? = p.batches[j]?) := by
  have hsome : ((sortBatches p.batches.enum).find? (fun q => q.2.can_allocate l)).isSome = true := by
    rw [List.find?_isSome]
    obtain ⟨b, hb, hcab⟩ := hex
    obtain ⟨i, hi⟩ := List.mem_iff_getElem?.mp hb
    have henum : (i, b) ∈ p.batches.enum := List.mem_enum_iff_getElem?.mpr hi
    exact ⟨(i, b), ((List.perm_insertionSort etaLe p.batches.enum).mem_iff).mpr henum, hcab⟩
  obtain ⟨⟨i, b⟩, hq⟩ := Option.isSome_iff_exists.mp hsome
  have hmemq : (i, b) ∈ sortBatches p.batches.enum := List.mem_of_find?_eq_some hq
  have henum : (i, b) ∈ p.batches.enum :=
    ((List.perm_insertionSort etaLe p.batches.enum).mem_iff).mp hmemq
  have hib : p.batches[i]? = some b := List.mem_enum_iff_getElem?.mp henum
  have hcab : b.can_allocate l = true := by
    have h := List.find?_some hq
    simpa using h
  obtain ⟨b2, hok⟩ := allocate_ok_of_can_allocate b l hcab
  refine ⟨i, b, b2, hib, hcab, hok, ?_, ?_, ?_⟩
  · rw [Product.allocate, if_neg (not_not_intro hsku), hq]
    show (match b.allocate l with
      | Except.ok b3 => Except.ok ({ p with batches := p.batches.set i b3 }, b.reference)
      | Except.error e => Except.error e) = _
    rw [hok]
  · intro c hc hcac
    obtain ⟨j, hj⟩ := List.mem_iff_getElem?.mp hc
    have hjenum : (j, c) ∈ p.batches.enum := List.mem_enum_iff_getElem?.mpr hj
    have hjs : (j, c) ∈ sortBatches p.batches.enum :=
      ((List.perm_insertionSort etaLe p.batches.enum).mem_iff).mpr hjenum
    have hsorted : List.Sorted etaLe (sortBatches p.batches.enum) :=
      List.sorted_insertionSort etaLe p.batches.enum
    exact @find?_sorted_min (Nat × Batch) etaLe (fun q => q.2.can_allocate l)
      (fun _ => Nat.le_refl _) (sortBatches p.batches.enum) (i, b) hsorted hq (j, c) hjs hcac
  · intro j hji
    exact List.getElem?_set_ne (fun h => hji h.symm)

/-- Witness for claim C5 at the spec scenario: product "SKU-1" owns batch A
(qty 20, eta day 1) and batch B (qty 20, no eta); allocating 5 units returns
reference "B", leaves A untouched and leaves B with 15 available. -/
theorem product_allocate_picks_earliest_eta_witness :
    (OrderLine.sku ⟨"o1", "SKU-1", 5⟩ = Product.sku ⟨"SKU-1",
        [⟨"A", "SKU-1", 20, some 1, [], []⟩, ⟨"B", "SKU-1", 20, none, [], []⟩]⟩ ∧
      ∃ b ∈ Product.batches ⟨"SKU-1",
        [⟨"A", "SKU-1", 20, some 1, [], []⟩, ⟨"B", "SKU-1", 20, none, [], []⟩]⟩,
        b.can_allocate ⟨"o1", "SKU-1", 5⟩ = true) ∧
    Product.allocate ⟨"SKU-1", [⟨"A", "SKU-1", 20, some 1, [], []⟩, ⟨"B", "SKU-1", 20, none, [], []⟩]⟩
        ⟨"o1", "SKU-1", 5⟩
      = Except.ok (⟨"SKU-1", [⟨"A", "SKU-1", 20, some 1, [], []⟩,
          ⟨"B", "SKU-1", 20, none, [⟨"o1", "SKU-1", 5⟩],
            [DomainEvent.batchAllocated "o1" "SKU-1" 5 "B"]⟩]⟩, "B") ∧
    Batch.available_qty ⟨"B", "SKU-1", 20, none, [⟨"o1", "SKU-1", 5⟩],
        [DomainEvent.batchAllocated "o1" "SKU-1" 5 "B"]⟩ = 15 ∧
    (∃ i b b2, (Product.batches ⟨"SKU-1",
        [⟨"A", "SKU-1", 20, some 1, [], []⟩, ⟨"B", "SKU-1", 20, none, [], []⟩]⟩)[i]? = some b ∧
      b.can_allocate ⟨"o1", "SKU-1", 5⟩ = true ∧
      b.allocate ⟨"o1", "SKU-1", 5⟩ = Except.ok b2 ∧
      Product.allocate ⟨"SKU-1", [⟨"A", "SKU-1", 20, some 1, [], []⟩, ⟨"B", "SKU-1", 20, none, [], []⟩]⟩
          ⟨"o1", "SKU-1", 5⟩
        = Except.ok ({ Product.mk "SKU-1"
            [⟨"A", "SKU-1", 20, some 1, [], []⟩, ⟨"B", "SKU-1", 20, none, [], []⟩] with
            batches := (Product.batches ⟨"SKU-1",
              [⟨"A", "SKU-1", 20, some 1, [], []⟩, ⟨"B", "SKU-1", 20, none, [], []⟩]⟩).set i b2 },
            b.reference) ∧
      (∀ c ∈ Product.batches ⟨"SKU-1",
          [⟨"A", "SKU-1", 20, some 1, [], []⟩, ⟨"B", "SKU-1", 20, none, [], []⟩]⟩,
        c.can_allocate ⟨"o1", "SKU-1", 5⟩ = true → etaKey b ≤ etaKey c) ∧
      (∀ j, j ≠ i → ((Product.batches ⟨"SKU-1",
          [⟨"A", "SKU-1", 20, some 1, [], []⟩, ⟨"B", "SKU-1", 20, none, [], []⟩]⟩).set i b2)[j]?
        = (Product.batches ⟨"SKU-1",
          [⟨"A", "SKU-1", 20, some 1, [], []⟩, ⟨"B", "SKU-1", 20, none, [], []⟩]⟩)[j]?)) :=
  ⟨⟨rfl, ⟨⟨"B", "SKU-1", 20, none, [], []⟩, by decide, by decide⟩⟩, rfl, rfl,
    product_allocate_picks_earliest_eta
      ⟨"SKU-1", [⟨"A", "SKU-1", 20, some 1, [], []⟩, ⟨"B", "SKU-1", 20, none, [], []⟩]⟩
      ⟨"o1", "SKU-1", 5⟩ rfl ⟨⟨"B", "SKU-1", 20, none, [], []⟩, by decide, by decide⟩⟩

/-- Counterexample to claim C5 as stated: batch B has no eta and could
allocate the line, batch A has eta equal to `date.min`; the claim says a
batch with no eta sorts before any batch with an eta, so B should win, but
the code's key `b.eta or date.min` maps both batches to `date.min` and the
stable sort keeps A (first in the owning list) ahead, so A wins. -/
theorem product_allocate_no_eta_batch_loses_tie :
    Batch.eta ⟨"B", "SKU-X", 20, none, [], []⟩ = none ∧
    Batch.can_allocate ⟨"B", "SKU-X", 20, none, [], []⟩ ⟨"o1", "SKU-X", 5⟩ = true ∧
    Batch.eta ⟨"A", "SKU-X", 20, some dateMin, [], []⟩ = some dateMin ∧
    (Product.allocate ⟨"SKU-X", [⟨"A", "SKU-X", 20, some dateMin, [], []⟩,
        ⟨"B", "SKU-X", 20, none, [], []⟩]⟩ ⟨"o1", "SKU-X", 5⟩).map Prod.snd
      = Except.ok "A" :=
  ⟨rfl, by decide, rfl, rfl⟩

/-- Claim C6 (code bug): `Product.allocate` does fail on SKU mismatch and,
independently, when no owned batch can satisfy the line, and both failures
are surfaced to the caller; but the raised exception is a `TypeError` from
the malformed single-argument `CannotAllocateError` call, not an
`AllocationError`. -/
theorem product_allocate_failures_are_typeerrors :
    Product.allocate ⟨"SKU-A", []⟩ ⟨"o1", "SKU-B", 1⟩
      = Except.error (PyExn.typeError
          ("CannotAllocateError.__init__ missing 2 required positional arguments (sku, qty); single argument was: "
            ++ "SKU mismatch: SKU-B not in product SKU-A")) ∧
    Product.allocate ⟨"SKU-A", []⟩ ⟨"o1", "SKU-A", 1⟩
      = Except.error (PyExn.typeError
          ("CannotAllocateError.__init__ missing 2 required positional arguments (sku, qty); single argument was: "
            ++ "Out of stock for SKU-A")) :=
  ⟨rfl, rfl⟩

/-! Message bus (`messagebus.py`). -/

/-- Commands from `commands.py`: `CreateBatch`, `Allocate`,
`ChangeBatchQuantity`. -/
inductive Cmd : Type where
  | createBatch (ref sku : String) (qty : Int) (eta : Option Nat)
  | allocate (orderid sku : String) (qty : Int)
  | changeBatchQuantity (ref : String) (qty : Int)
deriving DecidableEq

/-- Runtime type tags of the command classes: the keys of
`COMMAND_HANDLERS` (`type(command)`). -/
inductive CmdType : Type where
  | createBatch
  | allocate
  | changeBatchQuantity
deriving DecidableEq

/-- Python's `type(command)`. -/
def cmdType : Cmd → CmdType
  | Cmd.createBatch _ _ _ _ => CmdType.createBatch
  | Cmd.allocate _ _ _ => CmdType.allocate
  | Cmd.changeBatchQuantity _ _ => CmdType.changeBatchQuantity

/-- Runtime type tags of the event classes: the keys of `EVENT_HANDLERS`
(`type(event)`). -/
inductive EvtType : Type where
  | batchAllocated
  | outOfStock
deriving DecidableEq

/-- Python's `type(event)`. -/
def evtType : DomainEvent → EvtType
  | DomainEvent.batchAllocated _ _ _ _ => EvtType.batchAllocated
  | DomainEvent.outOfStock _ => EvtType.outOfStock

/-- Messages of the bus, `Message = Union[commands.Command, events.Event]`.
`other` stands for any Python object that is neither a Command nor an Event
instance (both `isinstance` checks in `handle` fail for it). Modelled from
the spec: `events.py` defines no common `Event` base class even though
`messagebus.py` refers to `events.Event`; per §2-§3 of the spec the events
form the closed variant set `DomainEvent`. -/
inductive Msg : Type where
  | cmd (c : Cmd)
  | evt (e : DomainEvent)
  | other (s : String)
deriving DecidableEq

/-- Modelled from the spec: `collect_new_events` is called on the unit of
work by `messagebus.py` but is absent from the `AbstractUnitOfWork`
protocol in `ports.py`; §4.4 and §6 of the spec describe it as draining
and returning, in deterministic order, all events appended to aggregates
touched during the current scope since the last drain. `UoW` keeps exactly
the bus-observable state: the queue of not-yet-drained events. -/
structure UoW : Type where
  pending : List DomainEvent
deriving DecidableEq

/-- Drain of the unit of work's pending events (see `UoW`). -/
def collect_new_events (u : UoW) : List DomainEvent × UoW :=
  (u.pending, { pending := [] })

/-- Behavior of one registered event handler as observed by the bus: given
the event and the unit of work it finishes either normally (`none`) or by
raising (`some exn`), in both cases leaving a possibly mutated unit of
work. The claims quantify over these, since the registries wired in
`messagebus.py` refer to handler functions absent from `handlers.py`. -/
def EHandler : Type := DomainEvent → UoW → Option PyExn × UoW

/-- Behavior of one registered command handler as observed by the bus: it
returns the handler result (for `handlers.allocate`, the winning batch
reference) or raises, leaving a possibly mutated unit of work. -/
def CHandler : Type := Cmd → UoW → Except PyExn (Option String) × UoW

/-- Loop body of `handle_event` from `messagebus.py` over the handler list:
each handler is tried in registration order; on success
`queue.extend(uow.collect_new_events())` runs; on failure the exception is
caught, logged, and the loop continues with the next handler. The returned
`List Nat` records, mirroring the `logging.debug` call placed before each
handler invocation, the registry positions of the handlers invoked, in
invocation order, counting from `i`. -/
def handleEventGo (e : DomainEvent) : List EHandler → List Msg → UoW → Nat →
    List Msg × UoW × List Nat
  | [], q, _u, _ => (q, _u, [])
  | h :: hs, q, u, i =>
    match h e u with
    | (none, u2) =>
      let (evs, u3) := collect_new_events u2
      let (q2, u4, tr) := handleEventGo e hs (q ++ evs.map Msg.evt) u3 (i + 1)
      (q2, u4, i :: tr)
    | (some _, u2) =>
      let (q2, u3, tr) := handleEventGo e hs q u2 (i + 1)
      (q2, u3, i :: tr)

/-- Function `handle_event` from `messagebus.py`, parameterized by the
`EVENT_HANDLERS` registry; `EVENT_HANDLERS.get(type(event), [])` is the
total function `eventHandlers` applied to the event's type tag. -/
def handle_event (eventHandlers : EvtType → List EHandler) (e : DomainEvent)
    (q : List Msg) (u : UoW) : List Msg × UoW × List Nat :=
  handleEventGo e (eventHandlers (evtType e)) q u 0

/-- Function `handle_command` from `messagebus.py`, parameterized by the
`COMMAND_HANDLERS` registry: `COMMAND_HANDLERS[type(command)]` raises
`KeyError` when no handler is registered; otherwise the handler runs; on
success the newly collected events are appended to the queue and the
handler's result is returned; on failure the exception is logged and
re-raised. -/
def handle_command (commandHandlers : CmdType → Option CHandler) (c : Cmd)
    (q : List Msg) (u : UoW) : Except PyExn (Option String × List Msg × UoW) :=
  match commandHandlers (cmdType c) with
  | none => Except.error (PyExn.keyError "COMMAND_HANDLERS")
  | some h =>
    match h c u with
    | (Except.ok r, u2) =>
      let (evs, u3) := collect_new_events u2
      Except.ok (r, q ++ evs.map Msg.evt, u3)
    | (Except.error ex, _) => Except.error ex

/-- While loop of `handle` from `messagebus.py`, with an explicit fuel
bound for the number of iterations still allowed (the Python loop is
unbounded; the claims hold for every sufficient fuel); `none` means the
fuel ran out with the loop still running. Events are dispatched through
`handle_event` (failures isolated), commands through `handle_command`
(failures propagate, aborting the loop), and a message that is neither
raises `Exception("Unknown message type: ...")`. -/
def handleLoop (commandHandlers : CmdType → Option CHandler)
    (eventHandlers : EvtType → List EHandler) :
    Nat → List Msg → List (Option String) → UoW →
    Option (Except PyExn (List (Option String)))
  | 0, _, _, _ => none
  | _ + 1, [], results, _ => some (Except.ok results)
  | fuel + 1, m :: rest, results, u =>
    match m with
    | Msg.evt e =>
      let (q2, u2, _) := handle_event eventHandlers e rest u
      handleLoop commandHandlers eventHandlers fuel q2 results u2
    | Msg.cmd c =>
      match handle_command commandHandlers c rest u with
      | Except.ok (r, q2, u2) =>
        handleLoop commandHandlers eventHandlers fuel q2 (results ++ [r]) u2
      | Except.error ex => some (Except.error ex)
    | Msg.other s => some (Except.error (PyExn.exception ("Unknown message type: " ++ s)))

/-- Function `handle` from `messagebus.py`: start with the single submitted
message and run the loop, accumulating command-handler results. -/
def handle (commandHandlers : CmdType → Option CHandler)
    (eventHandlers : EvtType → List EHandler) (fuel : Nat) (m : Msg) (u : UoW) :
    Option (Except PyExn (List (Option String))) :=
  handleLoop commandHandlers eventHandlers fuel [m] [] u

/-- Characterization used by the amended claim C1: the messages that
`handle_event` appends to the work queue are exactly the drains performed
after each successful handler invocation, in order; a failed invocation
contributes nothing at that point (its pending events stay in the unit of
work), with the unit of work threaded through all invocations. -/
def successHarvest (e : DomainEvent) : List EHandler → UoW → List Msg × UoW
  | [], u => ([], u)
  | h :: hs, u =>
    match h e u with
    | (none, u2) =>
      let (evs, u3) := collect_new_events u2
      let (rest2, u4) := successHarvest e hs u3
      (evs.map Msg.evt ++ rest2, u4)
    | (some _, u2) => successHarvest e hs u2

theorem handleEventGo_spec (e : DomainEvent) :
    ∀ (hs : List EHandler) (q : List Msg) (u : UoW) (i : Nat),
      handleEventGo e hs q u i
        = (q ++ (successHarvest e hs u).1, (successHarvest e hs u).2,
            List.range' i hs.length) := by
  intro hs
  induction hs with
  | nil =>
    intro q u i
    simp [handleEventGo, successHarvest, List.range']
  | cons h hs ih =>
    intro q u i
    rcases hhe : h e u with ⟨r, u2⟩
    cases r with
    | none =>
      simp only [handleEventGo, successHarvest, hhe, collect_new_events, ih,
        List.range', List.length_cons]
      simp [List.append_assoc]
    | some ex =>
      simp only [handleEventGo, successHarvest, hhe, ih, List.range', List.length_cons]

/-- Claim C1 (amended: the new events are harvested and appended to the
work queue after each SUCCESSFUL handler invocation; when a handler raises,
no harvest happens at that point and the events it left behind stay pending
in the unit of work): every registered handler for the event is invoked, in
registration order, whether or not earlier handlers raised; the queue grows
exactly by the successful invocations' harvests; and dispatching an event
never aborts the `handle` loop, raises out of it, or touches its
accumulated command results. -/
theorem event_dispatch_isolated (eventHandlers : EvtType → List EHandler)
    (commandHandlers : CmdType → Option CHandler)
    (e : DomainEvent) (q : List Msg) (u : UoW) (fuel : Nat)
    (rest : List Msg) (results : List (Option String)) :
    (handle_event eventHandlers e q u).2.2
      = List.range (eventHandlers (evtType e)).length ∧
    (handle_event eventHandlers e q u).1
      = q ++ (successHarvest e (eventHandlers (evtType e)) u).1 ∧
    (handle_event eventHandlers e q u).2.1
      = (successHarvest e (eventHandlers (evtType e)) u).2 ∧
    handleLoop commandHandlers eventHandlers (fuel + 1) (Msg.evt e :: rest) results u
      = handleLoop commandHandlers eventHandlers fuel
          (handle_event eventHandlers e rest u).1 results
          (handle_event eventHandlers e rest u).2.1 := by
  refine ⟨?_, ?_, ?_, ?_⟩
  · rw [handle_event, handleEventGo_spec, List.range_eq_range']
  · rw [handle_event, handleEventGo_spec]
  · rw [handle_event, handleEventGo_spec]
  · show (let (q2, u2, _) := handle_event eventHandlers e rest u
      handleLoop commandHandlers eventHandlers fuel q2 results u2) = _
    rcases handle_event eventHandlers e rest u with ⟨q2, u2, tr⟩
    rfl

/-- Handler used by the counterexample to claim C1: it appends an event to
the unit of work's pending events and then raises. -/
def raisingEHandler : EHandler := fun _ u =>
  (some (PyExn.exception "event handler failed"),
    { u with pending := u.pending ++ [DomainEvent.outOfStock "SKU-E"] })

/-- Counterexample to claim C1 as stated: the one registered handler for
the event raises after leaving a new event in the unit of work; the claim
says the new events are harvested and appended to the work queue regardless
of whether the handler succeeded, but the code skips the harvest on
failure: the work queue stays empty while the event is still pending in the
unit of work. -/
theorem failed_handler_events_not_enqueued :
    (handle_event (fun _ => [raisingEHandler]) (DomainEvent.outOfStock "SKU-E") [] ⟨[]⟩).1
      = [] ∧
    (handle_event (fun _ => [raisingEHandler]) (DomainEvent.outOfStock "SKU-E") [] ⟨[]⟩).2.1.pending
      = [DomainEvent.outOfStock "SKU-E"] :=
  ⟨rfl, rfl⟩

/-- Claim C2: when a Command's handler raises, the exception propagates out
of the dispatch loop immediately: the loop's value is that error with no
accumulated results, regardless of the results gathered so far and of any
messages still queued (they are abandoned unprocessed), and no event the
failed handler would have emitted is enqueued. -/
theorem command_failure_propagates (commandHandlers : CmdType → Option CHandler)
    (eventHandlers : EvtType → List EHandler) (fuel : Nat)
    (rest : List Msg) (results : List (Option String)) (u u2 : UoW)
    (c : Cmd) (h : CHandler) (ex : PyExn)
    (hreg : commandHandlers (cmdType c) = some h)
    (hfail : h c u = (Except.error ex, u2)) :
    handleLoop commandHandlers eventHandlers (fuel + 1) (Msg.cmd c :: rest) results u
      = some (Except.error ex) ∧
    handle commandHandlers eventHandlers (fuel + 1) (Msg.cmd c) u
      = some (Except.error ex) := by
  have hc : ∀ q, handle_command commandHandlers c q u = Except.error ex := by
    intro q
    rw [handle_command, hreg]
    show (match h c u with
      | (Except.ok r, u3) =>
        let (evs, u4) := collect_new_events u3
        Except.ok (r, q ++ evs.map Msg.evt, u4)
      | (Except.error ex2, _) => Except.error ex2) = _
    rw [hfail]
  constructor
  · show (match handle_command commandHandlers c rest u with
      | Except.ok (r, q2, u3) =>
        handleLoop commandHandlers eventHandlers fuel q2 (results ++ [r]) u3
      | Except.error ex2 => some (Except.error ex2)) = some (Except.error ex)
    rw [hc rest]
  · show (match handle_command commandHandlers c [] u with
      | Except.ok (r, q2, u3) =>
        handleLoop commandHandlers eventHandlers fuel q2 ([] ++ [r]) u3
      | Except.error ex2 => some (Except.error ex2)) = some (Except.error ex)
    rw [hc []]

/-- Command handler used by the witness for claim C2: it raises. -/
def failingCHandler : CHandler := fun _ u =>
  (Except.error (PyExn.invalidSku "Invalid SKU BAD"), u)

/-- Witness for claim C2 at a concrete registry whose Allocate handler
raises: `handle` yields that error with zero accumulated results. -/
theorem command_failure_propagates_witness :
    ((fun _ => some failingCHandler : CmdType → Option CHandler)
        (cmdType (Cmd.allocate "o1" "BAD" 1)) = some failingCHandler ∧
      failingCHandler (Cmd.allocate "o1" "BAD" 1) ⟨[]⟩
        = (Except.error (PyExn.invalidSku "Invalid SKU BAD"), (⟨[]⟩ : UoW))) ∧
    handleLoop (fun _ => some failingCHandler) (fun _ => []) (0 + 1)
        [Msg.cmd (Cmd.allocate "o1" "BAD" 1)] [] ⟨[]⟩
      = some (Except.error (PyExn.invalidSku "Invalid SKU BAD")) ∧
    handle (fun _ => some failingCHandler) (fun _ => []) (0 + 1)
        (Msg.cmd (Cmd.allocate "o1" "BAD" 1)) ⟨[]⟩
      = some (Except.error (PyExn.invalidSku "Invalid SKU BAD")) :=
  ⟨⟨rfl, rfl⟩,
    (command_failure_propagates (fun _ => some failingCHandler) (fun _ => []) 0
      [] [] ⟨[]⟩ ⟨[]⟩ (Cmd.allocate "o1" "BAD" 1) failingCHandler
      (PyExn.invalidSku "Invalid SKU BAD") rfl rfl).1,
    (command_failure_propagates (fun _ => some failingCHandler) (fun _ => []) 0
      [] [] ⟨[]⟩ ⟨[]⟩ (Cmd.allocate "o1" "BAD" 1) failingCHandler
      (PyExn.invalidSku "Invalid SKU BAD") rfl rfl).2⟩

/-- Claim C10: a message that is neither an Event nor a Command makes the
dispatch loop raise the unknown-message-type exception instead of silently
ignoring it; the queued messages and the results accumulated so far are
discarded with the raised exception. -/
theorem unknown_message_type_raises (commandHandlers : CmdType → Option CHandler)
    (eventHandlers : EvtType → List EHandler) (fuel : Nat) (u : UoW) (s : String)
    (rest : List Msg) (results : List (Option String)) :
    handleLoop commandHandlers eventHandlers (fuel + 1) (Msg.other s :: rest) results u
      = some (Except.error (PyExn.exception ("Unknown message type: " ++ s))) ∧
    handle commandHandlers eventHandlers (fuel + 1) (Msg.other s) u
      = some (Except.error (PyExn.exception ("Unknown message type: " ++ s))) :=
  ⟨rfl, rfl⟩

/-! Batch-quantity change (`handlers.py` / spec §4.2). -/

/-- Shrink step of the spec-modelled `Product.change_batch_quantity`. The
input list is the batch's allocations most-recent-first (the reverse of the
insertion-ordered allocation list); while `purchased` minus the remaining
allocated quantity is negative, the head — the most recently allocated
line — is deallocated. -/
def dropRecent (purchased : Int) : List OrderLine → List OrderLine
  | [] => []
  | l :: ls =>
    if purchased - sumQty (l :: ls) < 0 then dropRecent purchased ls
    else l :: ls

/-- Deallocation-on-shrink for one batch: keep deallocating the most
recently allocated lines while `available_qty` is negative. Emits no event:
the spec names no concrete event type for this step and `events.py` defines
none for deallocation, matching `Batch.deallocate` which also emits none. -/
def shrinkToNonNeg (b : Batch) : Batch :=
  { b with allocations := (dropRecent b.purchased_quantity b.allocations.reverse).reverse }

/-- Modelled from the spec: `Product.change_batch_quantity` is called by
`handlers.change_batch_quantity` in `handlers.py` but the method is absent
from `Product` in `models.py`. Per §4.2 of the spec it locates the batch by
reference among the owned batches, fails with a not-found condition if
absent, updates `purchased_quantity`, and if the reduction leaves
`available_qty` negative, deallocates the most recently allocated lines
until `available_qty ≥ 0` is restored (the spec leaves the exact tie-break
implementation-defined; most-recent-first is its documented example choice,
deterministic here because the embedded allocation list is in insertion
order). As in `Product.allocate`, batches are tagged with their list
position to render the in-place update functionally. -/
def Product.change_batch_quantity (p : Product) (ref : String) (qty : Int) :
    Except PyExn Product :=
  match p.batches.enum.find? (fun q => q.2.reference == ref) with
  | some (i, b) =>
    let b2 := shrinkToNonNeg { b with purchased_quantity := qty }
    Except.ok { p with batches := p.batches.set i b2 }
  | none => Except.error (PyExn.invalidSku ("Batch not found: " ++ ref))

theorem dropRecent_suffix (purchased : Int) :
    ∀ xs : List OrderLine, ∃ pre, xs = pre ++ dropRecent purchased xs := by
  intro xs
  induction xs with
  | nil => exact ⟨[], rfl⟩
  | cons l ls ih =>
    rw [dropRecent]
    by_cases hneg : purchased - sumQty (l :: ls) < 0
    · rw [if_pos hneg]
      obtain ⟨pre, hpre⟩ := ih
      exact ⟨l :: pre, by rw [List.cons_append, ← hpre]⟩
    · rw [if_neg hneg]
      exact ⟨[], rfl⟩

theorem dropRecent_nonneg (purchased : Int) (hp : 0 ≤ purchased) :
    ∀ xs : List OrderLine, 0 ≤ purchased - sumQty (dropRecent purchased xs) := by
  intro xs
  induction xs with
  | nil => simpa [dropRecent, sumQty] using hp
  | cons l ls ih =>
    rw [dropRecent]
    by_cases hneg : purchased - sumQty (l :: ls) < 0
    · rw [if_pos hneg]; exact ih
    · rw [if_neg hneg]; omega

theorem sumQty_reverse (xs : List OrderLine) : sumQty xs.reverse = sumQty xs := by
  simp [sumQty, List.map_reverse, List.sum_reverse]

/-- Claim C9 (spec-modelled, see `Product.change_batch_quantity`): the
operation locates the batch by reference among the product's owned batches
and fails with a not-found condition when no owned batch carries the
reference; when one does, that batch's `purchased_quantity` becomes the
commanded quantity, lines are deallocated most-recently-allocated-first —
the kept allocations are a prefix of the old insertion-ordered allocation
list — until, for a non-negative commanded quantity, `available_qty ≥ 0`
is restored, and every other position of the batch list is untouched. -/
theorem change_batch_quantity_spec (p : Product) (ref : String) (qty : Int)
    (hqty : 0 ≤ qty) :
    ((∀ b ∈ p.batches, b.reference ≠ ref) →
      p.change_batch_quantity ref qty
        = Except.error (PyExn.invalidSku ("Batch not found: " ++ ref))) ∧
    ((∃ b ∈ p.batches, b.reference = ref) →
      ∃ i b b2, p.batches[i]? = some b ∧ b.reference = ref ∧
        b2 = shrinkToNonNeg { b with purchased_quantity := qty } ∧
        p.change_batch_quantity ref qty = Except.ok { p with batches := p.batches.set i b2 } ∧
        b2.purchased_quantity = qty ∧
        (∃ dropped, b.allocations = b2.allocations ++ dropped) ∧
        0 ≤ b2.available_qty ∧
        (∀ j, j ≠ i → (p.batches.set i b2)[j]? = p.batches[j]?)) := by
  constructor
  · intro hnone
    have hfind : p.batches.enum.find? (fun q => q.2.reference == ref) = none := by
      rw [List.find?_eq_none]
      intro x hx
      have hb : x.2 ∈ p.batches := by
        rcases x with ⟨i, b⟩
        exact List.mem_iff_getElem?.mpr ⟨i, List.mem_enum_iff_getElem?.mp hx⟩
      simpa using hnone x.2 hb
    rw [Product.change_batch_quantity, hfind]
  · intro hex
    have hsome : (p.batches.enum.find? (fun q => q.2.reference == ref)).isSome = true := by
      rw [List.find?_isSome]
      obtain ⟨b, hb, href⟩ := hex
      obtain ⟨i, hi⟩ := List.mem_iff_getElem?.mp hb
      exact ⟨(i, b), List.mem_enum_iff_getElem?.mpr hi, by simpa using href⟩
    obtain ⟨⟨i, b⟩, hq⟩ := Option.isSome_iff_exists.mp hsome
    have hib : p.batches[i]? = some b :=
      List.mem_enum_iff_getElem?.mp (List.mem_of_find?_eq_some hq)
    have href : b.reference = ref := by
      have h := List.find?_some hq
      simpa using h
    obtain ⟨pre, hpre⟩ := dropRecent_suffix qty b.allocations.reverse
    refine ⟨i, b, shrinkToNonNeg { b with purchased_quantity := qty },
      hib, href, rfl, ?_, rfl, ?_, ?_, ?_⟩
    · rw [Product.change_batch_quantity, hq]
    · refine ⟨pre.reverse, ?_⟩
      have := congrArg List.reverse hpre
      simpa [shrinkToNonNeg] using this
    · have h := dropRecent_nonneg qty hqty b.allocations.reverse
      simp only [shrinkToNonNeg, Batch.available_qty, Batch.allocated_qty]
      rw [sumQty_reverse]
      exact h
    · intro j hji
      exact List.getElem?_set_ne (fun h => hji h.symm)

/-- Witness for claim C9: a product owning one batch (reference "b1",
purchased 10, two allocated lines of quantities 4 then 5) receives
`ChangeBatchQuantity("b1", 5)`; the newest line (qty 5) is deallocated,
the older line (qty 4) is kept, and `available_qty` is restored to 1. -/
theorem change_batch_quantity_witness :
    (0 ≤ (5 : Int)) ∧
    Product.change_batch_quantity
        ⟨"S", [⟨"b1", "S", 10, none, [⟨"o1", "S", 4⟩, ⟨"o2", "S", 5⟩], []⟩]⟩ "b1" 5
      = Except.ok ⟨"S", [⟨"b1", "S", 5, none, [⟨"o1", "S", 4⟩], []⟩]⟩ ∧
    (((∀ b ∈ Product.batches ⟨"S", [⟨"b1", "S", 10, none, [⟨"o1", "S", 4⟩, ⟨"o2", "S", 5⟩], []⟩]⟩,
        b.reference ≠ "b1") →
      Product.change_batch_quantity
          ⟨"S", [⟨"b1", "S", 10, none, [⟨"o1", "S", 4⟩, ⟨"o2", "S", 5⟩], []⟩]⟩ "b1" 5
        = Except.error (PyExn.invalidSku ("Batch not found: " ++ "b1"))) ∧
    ((∃ b ∈ Product.batches ⟨"S", [⟨"b1", "S", 10, none, [⟨"o1", "S", 4⟩, ⟨"o2", "S", 5⟩], []⟩]⟩,
        b.reference = "b1") →
      ∃ i b b2, (Product.batches
          ⟨"S", [⟨"b1", "S", 10, none, [⟨"o1", "S", 4⟩, ⟨"o2", "S", 5⟩], []⟩]⟩)[i]? = some b ∧
        b.reference = "b1" ∧
        b2 = shrinkToNonNeg { b with purchased_quantity := 5 } ∧
        Product.change_batch_quantity
            ⟨"S", [⟨"b1", "S", 10, none, [⟨"o1", "S", 4⟩, ⟨"o2", "S", 5⟩], []⟩]⟩ "b1" 5
          = Except.ok { Product.mk "S" [⟨"b1", "S", 10, none, [⟨"o1", "S", 4⟩, ⟨"o2", "S", 5⟩], []⟩] with
              batches := (Product.batches
                ⟨"S", [⟨"b1", "S", 10, none, [⟨"o1", "S", 4⟩, ⟨"o2", "S", 5⟩], []⟩]⟩).set i b2 } ∧
        b2.purchased_quantity = 5 ∧
        (∃ dropped, b.allocations = b2.allocations ++ dropped) ∧
        0 ≤ b2.available_qty ∧
        (∀ j, j ≠ i →
          ((Product.batches
            ⟨"S", [⟨"b1", "S", 10, none, [⟨"o1", "S", 4⟩, ⟨"o2", "S", 5⟩], []⟩]⟩).set i b2)[j]?
              = (Product.batches
                ⟨"S", [⟨"b1", "S", 10, none, [⟨"o1", "S", 4⟩, ⟨"o2", "S", 5⟩], []⟩]⟩)[j]?))) :=
  ⟨by decide, rfl,
    change_batch_quantity_spec
      ⟨"S", [⟨"b1", "S", 10, none, [⟨"o1", "S", 4⟩, ⟨"o2", "S", 5⟩], []⟩]⟩ "b1" 5 (by decide)⟩

end Allocation
